import Mathlib

/-!
# PaperFlux ingestion pipeline — verification of the fetch/download/normalize layer

Shallow embedding of `src/paperflux/src/services/paper_fetcher.py` together
with the configuration constants from `src/paperflux/src/config/settings.py`.

Modelling conventions:
* JSON values received from the listing endpoint are modelled by `JVal`.
* Python exceptions are modelled by `Except PyErr _`; a function that the
  source wraps in `try/except` and converts to `None` returns `Option` inside
  the `Except` (the `Except.error` outcomes are the exceptions that escape the
  `try`).
* The two I/O effects a download performs — the HTTP GET and the file write —
  are passed in as explicit functions (`net`, `fsW`), and the current date
  (`datetime.now().date()` rendered as `YYYY-MM-DD`) as the string `today`;
  the code under verification is otherwise pure.
-/

namespace PaperFlux

/-- A JSON value, as produced by decoding the listing endpoint's body. -/
inductive JVal where
  | str (s : String)
  | num (n : Int)
  | null
  | arr (xs : List JVal)
  | obj (fields : List (String × JVal))

/-- The Python exceptions that the embedded code can raise. -/
inductive PyErr where
  | keyError (k : String)
  | typeError
  | indexError
  | attributeError
  | unboundLocalError
deriving Repr, DecidableEq

/-- Python subscript `v[k]` on a JSON value: `KeyError` when the key is absent, `TypeError`
when `v` is not an object (not subscriptable by a string key). -/
def pyGetItem : JVal → String → Except PyErr JVal
  | .obj fields, k =>
    match fields.lookup k with
    | some v => .ok v
    | none => .error (.keyError k)
  | _, _ => .error .typeError

/-- The shared access path `paper_entry["paper"]["id"]` of `download_paper`,
`download_papers` and `parse_paper_data`. -/
def paperIdOf (paper_entry : JVal) : Except PyErr JVal :=
  match pyGetItem paper_entry "paper" with
  | .error e => .error e
  | .ok paper_data => pyGetItem paper_data "id"

/-- Python `repr()` of a JSON value (exact for quote- and escape-free strings,
which is all the listing schema of spec §6 produces). Only reachable through
`pyStr` on non-string ids. -/
def pyRepr : JVal → String
  | .str s => "\x27" ++ s ++ "\x27"
  | .num n => toString n
  | .null => "None"
  | .arr xs => "[" ++ String.intercalate ", " (xs.attach.map fun v => pyRepr v.1) ++ "]"
  | .obj fs =>
      "\x7b" ++
        String.intercalate ", "
          (fs.attach.map fun p => "\x27" ++ p.1.1 ++ "\x27: " ++ pyRepr p.1.2) ++
      "\x7d"
decreasing_by
  · have := List.sizeOf_lt_of_mem v.2; simp at this ⊢; omega
  · have h1 := List.sizeOf_lt_of_mem p.2
    rcases p with ⟨⟨k, v⟩, hm⟩
    simp at h1 ⊢
    omega

/-- Python `str()` of a JSON value, as applied by `str.format` to the `id`
argument. Per spec §6 the id is a string, so the first case is the live one. -/
def pyStr : JVal → String
  | .str s => s
  | .num n => toString n
  | .null => "None"
  | v => pyRepr v

/-! ## `src/config/settings.py` -/

def HF_API_URL : String := "https://huggingface.co/api/daily_papers"

def PDF_BASE_URL : String := "https://arxiv.org/pdf/\x7bid\x7d.pdf"

def TEMP_DIR : String := "temp_papers"

/-- Character-level worker for `pyFormatId`: replaces every occurrence of
the four-character replacement field. -/
def pyFormatIdAux (value : String) : List Char → List Char
  | '\x7b' :: 'i' :: 'd' :: '\x7d' :: rest => value.data ++ pyFormatIdAux value rest
  | c :: rest => c :: pyFormatIdAux value rest
  | [] => []

/-- Python `template.format(id=value)` for a template whose only replacement field is
`\x7bid\x7d`: every occurrence of the field is replaced by the value. -/
def pyFormatId (template value : String) : String :=
  ⟨pyFormatIdAux value template.data⟩

/-- Python `paper_id.replace("/", "_")`: the pattern is a single character, so
Python's substring replacement is exactly a character map. -/
def cleanId (paper_id : String) : String :=
  ⟨paper_id.data.map fun c => if c = '/' then '_' else c⟩

/-- POSIX `os.path.join(a, b)`: `b` wins when absolute, otherwise the parts
are joined with a single separator (`TEMP_DIR` has no trailing slash). -/
def osPathJoin (a b : String) : String :=
  if b.data.head? = some '/' then b else a ++ "/" ++ b

/-! ## The `Paper` model

`paperflux/src/models/models.py` is not part of the sources under
verification. Modelled from the spec: §3's `PaperRecord` — the six fields the
normalizer populates, holding exactly the values passed to the constructor
(`explanation` is absent until enrichment and never set by the normalizer, so
it is omitted here). -/
structure Paper where
  paper_id : JVal
  title : JVal
  authors : JVal
  summary : JVal
  published_at : JVal
  pdf_url : String

/-- Method `PaperFetcher.parse_paper_data`. The keyword arguments of the `Paper(...)`
call are evaluated left to right, so the first absent field's `KeyError` is
the one that escapes; the `pdf_url` argument subscripts `paper_data["id"]` a
second time. -/
def parse_paper_data (paper_entry : JVal) : Except PyErr Paper :=
  match pyGetItem paper_entry "paper" with
  | .error e => .error e
  | .ok paper_data =>
    match pyGetItem paper_data "id" with
    | .error e => .error e
    | .ok idv =>
      match pyGetItem paper_data "title" with
      | .error e => .error e
      | .ok titlev =>
        match pyGetItem paper_data "authors" with
        | .error e => .error e
        | .ok authorsv =>
          match pyGetItem paper_data "summary" with
          | .error e => .error e
          | .ok summaryv =>
            match pyGetItem paper_data "publishedAt" with
            | .error e => .error e
            | .ok pubv =>
              match pyGetItem paper_data "id" with
              | .error e => .error e
              | .ok idv2 =>
                .ok ⟨idv, titlev, authorsv, summaryv, pubv,
                     pyFormatId PDF_BASE_URL (pyStr idv2)⟩

/-! ## The fetcher's I/O interfaces -/

/-- An HTTP response: status code and raw body bytes. -/
structure Response where
  status : Nat
  body : List Nat
deriving Repr, DecidableEq

/-- Network-level failures of a GET (`aiohttp` exceptions). -/
inductive NetErr where
  | timeout
  | connectionError
deriving Repr, DecidableEq

/-- Failures of a local file write. -/
inductive IOErr where
  | writeFailed
deriving Repr, DecidableEq

/-- Failure to decode a response body as a JSON array (`response.json()`). -/
inductive DecodeErr where
  | invalidJson
deriving Repr, DecidableEq

/-- The exceptions `fetch_papers` can raise: a propagated network error, a
body that does not decode, or the explicit
`Exception(f"API request failed: ...")` carrying the status code. -/
inductive FetchErr where
  | network (e : NetErr)
  | decode
  | apiFailed (status : Nat)
deriving Repr, DecidableEq

/-- Method `PaperFetcher.fetch_papers`: one GET against `HF_API_URL`; on status 200
the body is decoded and returned, on anything else the function raises. `net`
models `session.get`, `decodeJson` models `response.json()` (the listing body
is a JSON array per spec §6). -/
def fetch_papers (net : String → Except NetErr Response)
    (decodeJson : List Nat → Except DecodeErr (List JVal)) :
    Except FetchErr (List JVal) :=
  match net HF_API_URL with
  | .error e => .error (.network e)
  | .ok response =>
    if response.status = 200 then
      match decodeJson response.body with
      | .ok papers => .ok papers
      | .error _ => .error .decode
    else .error (.apiFailed response.status)

/-- Method `PaperFetcher.download_paper`. The whole body sits in a
`try/except Exception` that returns `None` — but the handler's log line
interpolates `paper_id`, so when the exception fired before `paper_id` was
assigned (the `["paper"]` / `["id"]` subscripts) the handler itself raises
`UnboundLocalError`, which escapes. A non-string id is caught after
assignment (`.replace` raises `AttributeError`) and yields `None`. On the
normal path the GET at the formatted PDF url either returns 200 — then the
body is written to `os.path.join(TEMP_DIR, f"{today}_{clean_id}.pdf")` and
the path returned — or the function returns `None`; network and write errors
also yield `None`. -/
def download_paper (net : String → Except NetErr Response)
    (fsW : String → List Nat → Except IOErr Unit)
    (today : String) (paper_entry : JVal) : Except PyErr (Option String) :=
  match pyGetItem paper_entry "paper" with
  | .error _ => .error .unboundLocalError
  | .ok paper_data =>
    match pyGetItem paper_data "id" with
    | .error _ => .error .unboundLocalError
    | .ok idv =>
      match idv with
      | .str paper_id =>
        let pdf_url := pyFormatId PDF_BASE_URL paper_id
        let clean_id := cleanId paper_id
        let filename := today ++ "_" ++ clean_id ++ ".pdf"
        let filepath := osPathJoin TEMP_DIR filename
        match net pdf_url with
        | .error _ => .ok none
        | .ok response =>
          if response.status = 200 then
            match fsW filepath response.body with
            | .error _ => .ok none
            | .ok _ => .ok (some filepath)
          else .ok none
      | _ => .ok none

/-- Models `asyncio.gather(*tasks)` over already-evaluated task outcomes: the results
keep the tasks' order; if a task raised, the exception propagates (tasks are
modelled in list order). -/
def gatherResults : List (Except PyErr (Option String)) →
    Except PyErr (List (Option String))
  | [] => .ok []
  | .error e :: _ => .error e
  | .ok r :: rest =>
    match gatherResults rest with
    | .error e => .error e
    | .ok rs => .ok (r :: rs)

/-- Python dict assignment `d[k] = v`: overwrite in place when the key
exists, else append (insertion order preserved). -/
def dictInsert (d : List (String × String)) (k v : String) :
    List (String × String) :=
  if d.any (fun p => p.1 = k) then
    d.map fun p => if p.1 = k then (k, v) else p
  else d ++ [(k, v)]

/-- The `for paper, file_path in zip(papers, results)` loop of
`download_papers`: a truthy `file_path` (a non-empty string) is stored under
`paper["paper"]["id"]`. The subscripts run outside any `try`, so their
exceptions would escape; they are unreachable because a truthy path implies a
string id (the dict key is therefore a string; Python would key by the raw
value). -/
def buildPaths : List (JVal × Option String) → List (String × String) →
    Except PyErr (List (String × String))
  | [], acc => .ok acc
  | (paper, file_path) :: rest, acc =>
    match file_path with
    | none => buildPaths rest acc
    | some s =>
      if s.isEmpty then buildPaths rest acc
      else
        match paperIdOf paper with
        | .error e => .error e
        | .ok (.str k) => buildPaths rest (dictInsert acc k s)
        | .ok _ => .error .typeError

/-- The success counter `sum(1 for status in results if status[1])`: each result is subscripted
at index 1 — `None[1]` raises `TypeError`, a string shorter than two
characters raises `IndexError`, and otherwise the one-character string is
truthy and counts. -/
def countSuccessful : List (Option String) → Except PyErr Nat
  | [] => .ok 0
  | none :: _ => .error .typeError
  | some s :: rest =>
    if s.length < 2 then .error .indexError
    else
      match countSuccessful rest with
      | .error e => .error e
      | .ok n => .ok (n + 1)

/-- What a `download_papers` call that returns normally produced: the
`paper_paths` dict it returns, and the success count and total it reports in
its `Downloaded {successful}/{len(papers)}` log line. -/
structure DlResult where
  paper_paths : List (String × String)
  successful : Nat
  total : Nat
deriving Repr, DecidableEq

/-- Method `PaperFetcher.download_papers`: gather one `download_paper` task per
entry, build `paper_paths` from the truthy results, then compute the
reported success count by subscripting every result. -/
def download_papers (net : String → Except NetErr Response)
    (fsW : String → List Nat → Except IOErr Unit)
    (today : String) (papers : List JVal) : Except PyErr DlResult :=
  match gatherResults (papers.map (download_paper net fsW today)) with
  | .error e => .error e
  | .ok results =>
    match buildPaths (papers.zip results) [] with
    | .error e => .error e
    | .ok paths =>
      match countSuccessful results with
      | .error e => .error e
      | .ok successful => .ok ⟨paths, successful, papers.length⟩

/-! ## Concrete fixtures

A well-formed two-entry batch and the I/O environments used to evaluate the
embedded functions on concrete runs. -/

/-- A well-formed listing entry with id `2401.00001`. -/
def entryA : JVal :=
  .obj [("paper", .obj
    [("id", .str "2401.00001"), ("title", .str "Paper A"),
     ("authors", .arr [.obj [("name", .str "Ada")]]),
     ("summary", .str "summary A"),
     ("publishedAt", .str "2024-01-01T00:00:00Z")])]

/-- A well-formed listing entry with id `org/2401.00002` (slashed id). -/
def entryB : JVal :=
  .obj [("paper", .obj
    [("id", .str "org/2401.00002"), ("title", .str "Paper B"),
     ("authors", .arr [.obj [("name", .str "Bob")]]),
     ("summary", .str "summary B"),
     ("publishedAt", .str "2024-01-02T00:00:00Z")])]

/-- A file system whose writes always succeed. -/
def fsOk : String → List Nat → Except IOErr Unit := fun _ _ => .ok ()

/-- A network that serves `entryA`'s PDF with 200 and 404s everything else. -/
def netAonly : String → Except NetErr Response := fun url =>
  if url = pyFormatId PDF_BASE_URL "2401.00001" then .ok ⟨200, [37, 80, 68, 70]⟩
  else .ok ⟨404, []⟩

/-- A network that serves every GET with 200. -/
def netAll200 : String → Except NetErr Response := fun _ =>
  .ok ⟨200, [37, 80, 68, 70]⟩

/-- The date used in the concrete runs. -/
def today0 : String := "2026-10-12"

/-- A well-formed listing entry with id `2401.00003`. -/
def entryC : JVal :=
  .obj [("paper", .obj
    [("id", .str "2401.00003"), ("title", .str "Paper C"),
     ("authors", .arr [.obj [("name", .str "Cid")]]),
     ("summary", .str "summary C"),
     ("publishedAt", .str "2024-01-03T00:00:00Z")])]

/-- A network that serves `entryA`'s PDF with 200 and times out on every
other URL. -/
def netAokBtimeout : String → Except NetErr Response := fun url =>
  if url = pyFormatId PDF_BASE_URL "2401.00001" then .ok ⟨200, [37, 80, 68, 70]⟩
  else .error .timeout

/-- A network under which the listing GET answers 200 with the bytes of an
empty JSON array. -/
def netListing : String → Except NetErr Response := fun _ => .ok ⟨200, [91, 93]⟩

/-- A network under which every GET answers 503. -/
def netDown : String → Except NetErr Response := fun _ => .ok ⟨503, []⟩

/-- A decoder that reads any body as the empty listing. -/
def decodeEmptyList : List Nat → Except DecodeErr (List JVal) := fun _ => .ok []

/-- The record `parse_paper_data` produces for `entryA`. -/
def recA : Paper :=
  ⟨.str "2401.00001", .str "Paper A", .arr [.obj [("name", .str "Ada")]],
   .str "summary A", .str "2024-01-01T00:00:00Z",
   pyFormatId PDF_BASE_URL "2401.00001"⟩

/-- A malformed listing entry: the nested paper object lacks `id`. -/
def entryMissingId : JVal := .obj [("paper", .obj [("title", .str "T")])]

/-- The required-field check of spec §4.3, read off the subscripts the
normalizer performs: the nested `paper` object and its `id`, `title`,
`authors`, `summary` and `publishedAt` keys. -/
def requiredFieldsPresent (e : JVal) : Bool :=
  match pyGetItem e "paper" with
  | .error _ => false
  | .ok pd =>
    (pyGetItem pd "id").isOk && (pyGetItem pd "title").isOk &&
    (pyGetItem pd "authors").isOk && (pyGetItem pd "summary").isOk &&
    (pyGetItem pd "publishedAt").isOk

/-! ## Theorems -/

/-- C4: `fetch_papers` returns the decoded JSON sequence of raw entries
exactly when the listing endpoint responds HTTP 200, and raises — an
`apiFailed` exception on any non-200 status, a propagated network error
otherwise — returning no partial listing. -/
theorem fetch_papers_ok_iff_status200 (net : String → Except NetErr Response)
    (decodeJson : List Nat → Except DecodeErr (List JVal)) :
    (∀ r papers, net HF_API_URL = .ok r → r.status = 200 →
      decodeJson r.body = .ok papers →
      fetch_papers net decodeJson = .ok papers) ∧
    (∀ r, net HF_API_URL = .ok r → r.status ≠ 200 →
      fetch_papers net decodeJson = .error (.apiFailed r.status)) ∧
    (∀ e, net HF_API_URL = .error e →
      fetch_papers net decodeJson = .error (.network e)) ∧
    (∀ papers, fetch_papers net decodeJson = .ok papers →
      ∃ r, net HF_API_URL = .ok r ∧ r.status = 200 ∧
        decodeJson r.body = .ok papers) := by
  refine ⟨?_, ?_, ?_, ?_⟩
  · intro r papers hnet h200 hdec
    simp [fetch_papers, hnet, h200, hdec]
  · intro r hnet hne
    simp [fetch_papers, hnet, hne]
  · intro e hnet
    simp [fetch_papers, hnet]
  · intro papers hok
    cases hnet : net HF_API_URL with
    | error e => simp [fetch_papers, hnet] at hok
    | ok r =>
      by_cases h200 : r.status = 200
      · cases hdec : decodeJson r.body with
        | error e => simp [fetch_papers, hnet, h200, hdec] at hok
        | ok l =>
          simp [fetch_papers, hnet, h200, hdec] at hok
          exact ⟨r, rfl, h200, hok ▸ hdec⟩
      · simp [fetch_papers, hnet, h200] at hok

/-- Witness for C4: a concrete 200 run returns the decoded listing, a
concrete 503 run raises with that status. -/
theorem fetch_papers_ok_iff_status200_witness :
    fetch_papers netListing decodeEmptyList = .ok [] ∧
    fetch_papers netDown decodeEmptyList = .error (.apiFailed 503) :=
  ⟨(fetch_papers_ok_iff_status200 netListing decodeEmptyList).1
      ⟨200, [91, 93]⟩ [] rfl rfl rfl,
   (fetch_papers_ok_iff_status200 netDown decodeEmptyList).2.1
      ⟨503, []⟩ rfl (by decide)⟩

/-- A successful parse pins the whole entry shape: the nested paper object
exists and every field of the record is the corresponding lookup. Shared
elimination lemma for the claims about `parse_paper_data`. -/
theorem parse_paper_data_ok_elim (e : JVal) (r : Paper)
    (h : parse_paper_data e = .ok r) :
    ∃ pd, pyGetItem e "paper" = .ok pd ∧
      pyGetItem pd "id" = .ok r.paper_id ∧
      pyGetItem pd "title" = .ok r.title ∧
      pyGetItem pd "authors" = .ok r.authors ∧
      pyGetItem pd "summary" = .ok r.summary ∧
      pyGetItem pd "publishedAt" = .ok r.published_at ∧
      r.pdf_url = pyFormatId PDF_BASE_URL (pyStr r.paper_id) := by
  cases hp : pyGetItem e "paper" with
  | error err => simp [parse_paper_data, hp] at h
  | ok pd =>
    refine ⟨pd, rfl, ?_⟩
    cases h1 : pyGetItem pd "id" with
    | error err => simp [parse_paper_data, hp, h1] at h
    | ok idv =>
      cases h2 : pyGetItem pd "title" with
      | error err => simp [parse_paper_data, hp, h1, h2] at h
      | ok titlev =>
        cases h3 : pyGetItem pd "authors" with
        | error err => simp [parse_paper_data, hp, h1, h2, h3] at h
        | ok authorsv =>
          cases h4 : pyGetItem pd "summary" with
          | error err => simp [parse_paper_data, hp, h1, h2, h3, h4] at h
          | ok summaryv =>
            cases h5 : pyGetItem pd "publishedAt" with
            | error err => simp [parse_paper_data, hp, h1, h2, h3, h4, h5] at h
            | ok pubv =>
              simp [parse_paper_data, hp, h1, h2, h3, h4, h5] at h
              subst h
              exact ⟨rfl, rfl, rfl, rfl, rfl, rfl⟩

/-- Under a known string id, `download_paper` reduces to its network/write
core at the url and scratch path determined by that id. Shared reduction
lemma for the download claims. -/
theorem download_paper_eq_of_id (net : String → Except NetErr Response)
    (fsW : String → List Nat → Except IOErr Unit) (today : String)
    (e : JVal) (pid : String) (hid : paperIdOf e = .ok (.str pid)) :
    download_paper net fsW today e =
      (match net (pyFormatId PDF_BASE_URL pid) with
       | .error _ => .ok none
       | .ok response =>
         if response.status = 200 then
           match fsW (osPathJoin TEMP_DIR (today ++ "_" ++ cleanId pid ++ ".pdf"))
               response.body with
           | .error _ => .ok none
           | .ok _ => .ok (some (osPathJoin TEMP_DIR
               (today ++ "_" ++ cleanId pid ++ ".pdf")))
         else .ok none) := by
  cases hp : pyGetItem e "paper" with
  | error err => simp [paperIdOf, hp] at hid
  | ok pd =>
    have hid' : pyGetItem pd "id" = .ok (.str pid) := by
      simpa [paperIdOf, hp] using hid
    simp [download_paper, hp, hid']

/-- C3: for an entry with string paper id, `download_paper` returns the
scratch path exactly when the document GET answers 200 and the write
succeeds, and returns `None` — rather than raising — on any non-200 status,
network error, or write error for that entry. -/
theorem download_paper_ok_iff_200 (net : String → Except NetErr Response)
    (fsW : String → List Nat → Except IOErr Unit) (today : String)
    (e : JVal) (pid : String) (hid : paperIdOf e = .ok (.str pid)) :
    (download_paper net fsW today e =
        .ok (some (osPathJoin TEMP_DIR (today ++ "_" ++ cleanId pid ++ ".pdf"))) ↔
      ∃ r, net (pyFormatId PDF_BASE_URL pid) = .ok r ∧ r.status = 200 ∧
        fsW (osPathJoin TEMP_DIR (today ++ "_" ++ cleanId pid ++ ".pdf"))
          r.body = .ok ()) ∧
    (∀ r, net (pyFormatId PDF_BASE_URL pid) = .ok r → r.status ≠ 200 →
      download_paper net fsW today e = .ok none) ∧
    (∀ err, net (pyFormatId PDF_BASE_URL pid) = .error err →
      download_paper net fsW today e = .ok none) ∧
    (∀ r werr, net (pyFormatId PDF_BASE_URL pid) = .ok r → r.status = 200 →
      fsW (osPathJoin TEMP_DIR (today ++ "_" ++ cleanId pid ++ ".pdf"))
          r.body = .error werr →
      download_paper net fsW today e = .ok none) := by
  rw [download_paper_eq_of_id net fsW today e pid hid]
  refine ⟨?_, ?_, ?_, ?_⟩
  · constructor
    · intro h
      cases hnet : net (pyFormatId PDF_BASE_URL pid) with
      | error err => simp [hnet] at h
      | ok r =>
        by_cases h200 : r.status = 200
        · cases hw : fsW (osPathJoin TEMP_DIR
              (today ++ "_" ++ cleanId pid ++ ".pdf")) r.body with
          | error werr => simp [hnet, h200, hw] at h
          | ok u => exact ⟨r, rfl, h200, by rw [hw]⟩
        · simp [hnet, h200] at h
    · rintro ⟨r, hnet, h200, hw⟩
      simp [hnet, h200, hw]
  · intro r hnet hne
    simp [hnet, hne]
  · intro err hnet
    simp [hnet]
  · intro r werr hnet h200 hw
    simp [hnet, h200, hw]

/-- Witness for C3: under `netAonly`, `entryA` downloads to its scratch path
(GET answered 200) and `entryB` yields `None` (GET answered 404), with no
exception escaping either call. -/
theorem download_paper_ok_iff_200_witness :
    (download_paper netAonly fsOk today0 entryA =
        .ok (some (osPathJoin TEMP_DIR
          (today0 ++ "_" ++ cleanId "2401.00001" ++ ".pdf"))) ↔
      ∃ r, netAonly (pyFormatId PDF_BASE_URL "2401.00001") = .ok r ∧
        r.status = 200 ∧
        fsOk (osPathJoin TEMP_DIR
          (today0 ++ "_" ++ cleanId "2401.00001" ++ ".pdf")) r.body = .ok ()) ∧
    download_paper netAonly fsOk today0 entryB = .ok none :=
  ⟨(download_paper_ok_iff_200 netAonly fsOk today0 entryA "2401.00001" rfl).1,
   (download_paper_ok_iff_200 netAonly fsOk today0 entryB "org/2401.00002"
      rfl).2.1 ⟨404, []⟩ rfl (by decide)⟩

/-- Sanitization removes every path separator: the character map underlying
`paper_id.replace("/", "_")` leaves no slash in its output. -/
theorem slash_not_mem_cleanId (s : String) : '/' ∉ (cleanId s).data := by
  intro h
  have h' : '/' ∈ s.data.map (fun c => if c = '/' then '_' else c) := h
  rw [List.mem_map] at h'
  obtain ⟨a, _, ha⟩ := h'
  by_cases hc : a = '/' <;> simp [hc] at ha

/-- C8: every successful download's scratch path is the scratch directory
joined with the filename `{today}_{sanitized id}.pdf`, where the sanitized id
is the paper id with every slash replaced by an underscore; since the date
carries no slash, the filename is a single path component. -/
theorem download_paper_scratch_path (net : String → Except NetErr Response)
    (fsW : String → List Nat → Except IOErr Unit) (today : String)
    (e : JVal) (p : String)
    (h : download_paper net fsW today e = .ok (some p)) :
    ∃ pid, paperIdOf e = .ok (.str pid) ∧
      p = osPathJoin TEMP_DIR (today ++ "_" ++ cleanId pid ++ ".pdf") ∧
      '/' ∉ (cleanId pid).data ∧
      ('/' ∉ today.data → '/' ∉ (today ++ "_" ++ cleanId pid ++ ".pdf").data) := by
  cases hp : pyGetItem e "paper" with
  | error err => simp [download_paper, hp] at h
  | ok pd =>
    cases h1 : pyGetItem pd "id" with
    | error err => simp [download_paper, hp, h1] at h
    | ok idv =>
      cases idv with
      | str pid =>
        have hid : paperIdOf e = .ok (.str pid) := by simp [paperIdOf, hp, h1]
        rw [download_paper_eq_of_id net fsW today e pid hid] at h
        refine ⟨pid, hid, ?_, slash_not_mem_cleanId pid, ?_⟩
        · cases hnet : net (pyFormatId PDF_BASE_URL pid) with
          | error err => simp [hnet] at h
          | ok r =>
            by_cases h200 : r.status = 200
            · cases hw : fsW (osPathJoin TEMP_DIR
                  (today ++ "_" ++ cleanId pid ++ ".pdf")) r.body with
              | error werr => simp [hnet, h200, hw] at h
              | ok u =>
                simp [hnet, h200, hw] at h
                exact h.symm
            · simp [hnet, h200] at h
        · intro ht hmem
          simp only [String.data_append, List.mem_append] at hmem
          rcases hmem with ((hA | hB) | hC) | hD
          · exact ht hA
          · exact absurd hB (by decide)
          · exact slash_not_mem_cleanId pid hC
          · exact absurd hD (by decide)
      | num n => simp [download_paper, hp, h1] at h
      | null => simp [download_paper, hp, h1] at h
      | arr xs => simp [download_paper, hp, h1] at h
      | obj fs => simp [download_paper, hp, h1] at h

/-- Witness for C8: the slashed id `org/2401.00002` of `entryB` lands in the
single-component filename `2026-10-12_org_2401.00002.pdf` under `TEMP_DIR`. -/
theorem download_paper_scratch_path_witness :
    ∃ pid, paperIdOf entryB = .ok (.str pid) ∧
      "temp_papers/2026-10-12_org_2401.00002.pdf" =
        osPathJoin TEMP_DIR (today0 ++ "_" ++ cleanId pid ++ ".pdf") ∧
      '/' ∉ (cleanId pid).data ∧
      ('/' ∉ today0.data →
        '/' ∉ (today0 ++ "_" ++ cleanId pid ++ ".pdf").data) :=
  download_paper_scratch_path netAll200 fsOk today0 entryB
    "temp_papers/2026-10-12_org_2401.00002.pdf" rfl

/-- C5: the `pdf_url` the normalizer writes into the record and the URL the
downloader fetches for the same entry agree — both are the template
`PDF_BASE_URL` instantiated with the entry's paper id; in particular
`download_paper`'s outcome depends on the network only through its answer at
that one URL. -/
theorem pdf_url_matches_download_url (e : JVal) (r : Paper)
    (h : parse_paper_data e = .ok r) :
    r.pdf_url = pyFormatId PDF_BASE_URL (pyStr r.paper_id) ∧
    ∀ pid, r.paper_id = .str pid →
      r.pdf_url = pyFormatId PDF_BASE_URL pid ∧
      paperIdOf e = .ok (.str pid) ∧
      ∀ (net net' : String → Except NetErr Response)
        (fsW : String → List Nat → Except IOErr Unit) (today : String),
        net (pyFormatId PDF_BASE_URL pid) = net' (pyFormatId PDF_BASE_URL pid) →
        download_paper net fsW today e = download_paper net' fsW today e := by
  obtain ⟨pd, hp, h1, _, _, _, _, hurl⟩ := parse_paper_data_ok_elim e r h
  refine ⟨hurl, ?_⟩
  intro pid hpid
  have hid : paperIdOf e = .ok (.str pid) := by
    simp [paperIdOf, hp, h1, hpid]
  refine ⟨by rw [hurl, hpid]; simp [pyStr], hid, ?_⟩
  intro net net' fsW today hnn
  rw [download_paper_eq_of_id net fsW today e pid hid,
      download_paper_eq_of_id net' fsW today e pid hid, hnn]

/-- Witness for C5: for `entryA` the parsed `pdf_url` is the instantiated
template, and two networks agreeing at that URL give the same download. -/
theorem pdf_url_matches_download_url_witness :
    recA.pdf_url = pyFormatId PDF_BASE_URL "2401.00001" ∧
    paperIdOf entryA = .ok (.str "2401.00001") ∧
    download_paper netAonly fsOk today0 entryA =
      download_paper netAll200 fsOk today0 entryA := by
  have h := (pdf_url_matches_download_url entryA recA rfl).2 "2401.00001" rfl
  exact ⟨h.1, h.2.1, h.2.2 netAonly netAll200 fsOk today0 rfl⟩

/-- C6: the normalizer is a pure deterministic function — two applications
to the same entry yield identical records, and every field of a successful
record (`paper_id`, `title`, `authors`, `summary`, `published_at`,
`pdf_url`) is determined solely by the entry's lookups. -/
theorem parse_paper_data_deterministic (e : JVal) :
    parse_paper_data e = parse_paper_data e ∧
    ∀ r, parse_paper_data e = .ok r →
      ∃ pd, pyGetItem e "paper" = .ok pd ∧
        pyGetItem pd "id" = .ok r.paper_id ∧
        pyGetItem pd "title" = .ok r.title ∧
        pyGetItem pd "authors" = .ok r.authors ∧
        pyGetItem pd "summary" = .ok r.summary ∧
        pyGetItem pd "publishedAt" = .ok r.published_at ∧
        r.pdf_url = pyFormatId PDF_BASE_URL (pyStr r.paper_id) :=
  ⟨rfl, fun r h => parse_paper_data_ok_elim e r h⟩

/-- Witness for C6: the fields of `entryA`'s parsed record are exactly its
lookups. -/
theorem parse_paper_data_deterministic_witness :
    ∃ pd, pyGetItem entryA "paper" = .ok pd ∧
      pyGetItem pd "id" = .ok recA.paper_id ∧
      pyGetItem pd "title" = .ok recA.title ∧
      pyGetItem pd "authors" = .ok recA.authors ∧
      pyGetItem pd "summary" = .ok recA.summary ∧
      pyGetItem pd "publishedAt" = .ok recA.published_at ∧
      recA.pdf_url = pyFormatId PDF_BASE_URL (pyStr recA.paper_id) :=
  (parse_paper_data_deterministic entryA).2 recA rfl

/-- C7: the normalizer succeeds with a record exactly when the nested paper
object and all five required fields are present, and raises on every entry
in which any of them is absent. -/
theorem parse_paper_data_ok_iff_required (e : JVal) :
    (requiredFieldsPresent e = true → ∃ r, parse_paper_data e = .ok r) ∧
    (requiredFieldsPresent e = false → ∃ err, parse_paper_data e = .error err) := by
  constructor
  · intro hreq
    cases hp : pyGetItem e "paper" with
    | error err => simp [requiredFieldsPresent, hp] at hreq
    | ok pd =>
      cases h1 : pyGetItem pd "id" with
      | error err => simp [requiredFieldsPresent, hp, h1, Except.isOk, Except.toBool] at hreq
      | ok idv =>
        cases h2 : pyGetItem pd "title" with
        | error err => simp [requiredFieldsPresent, hp, h1, h2, Except.isOk, Except.toBool] at hreq
        | ok titlev =>
          cases h3 : pyGetItem pd "authors" with
          | error err => simp [requiredFieldsPresent, hp, h1, h2, h3, Except.isOk, Except.toBool] at hreq
          | ok authorsv =>
            cases h4 : pyGetItem pd "summary" with
            | error err => simp [requiredFieldsPresent, hp, h1, h2, h3, h4, Except.isOk, Except.toBool] at hreq
            | ok summaryv =>
              cases h5 : pyGetItem pd "publishedAt" with
              | error err =>
                simp [requiredFieldsPresent, hp, h1, h2, h3, h4, h5, Except.isOk, Except.toBool] at hreq
              | ok pubv =>
                refine ⟨⟨idv, titlev, authorsv, summaryv, pubv,
                  pyFormatId PDF_BASE_URL (pyStr idv)⟩, ?_⟩
                simp [parse_paper_data, hp, h1, h2, h3, h4, h5]
  · intro hreq
    cases hp : pyGetItem e "paper" with
    | error err => exact ⟨err, by simp [parse_paper_data, hp]⟩
    | ok pd =>
      cases h1 : pyGetItem pd "id" with
      | error err => exact ⟨err, by simp [parse_paper_data, hp, h1]⟩
      | ok idv =>
        cases h2 : pyGetItem pd "title" with
        | error err => exact ⟨err, by simp [parse_paper_data, hp, h1, h2]⟩
        | ok titlev =>
          cases h3 : pyGetItem pd "authors" with
          | error err => exact ⟨err, by simp [parse_paper_data, hp, h1, h2, h3]⟩
          | ok authorsv =>
            cases h4 : pyGetItem pd "summary" with
            | error err => exact ⟨err, by simp [parse_paper_data, hp, h1, h2, h3, h4]⟩
            | ok summaryv =>
              cases h5 : pyGetItem pd "publishedAt" with
              | error err =>
                exact ⟨err, by simp [parse_paper_data, hp, h1, h2, h3, h4, h5]⟩
              | ok pubv =>
                simp [requiredFieldsPresent, hp, h1, h2, h3, h4, h5, Except.isOk, Except.toBool] at hreq

/-- Witness for C7: the well-formed `entryA` parses, the id-less
`entryMissingId` raises. -/
theorem parse_paper_data_ok_iff_required_witness :
    (requiredFieldsPresent entryA = true ∧
      ∃ r, parse_paper_data entryA = .ok r) ∧
    (requiredFieldsPresent entryMissingId = false ∧
      ∃ err, parse_paper_data entryMissingId = .error err) :=
  ⟨⟨rfl, (parse_paper_data_ok_iff_required entryA).1 rfl⟩,
   ⟨rfl, (parse_paper_data_ok_iff_required entryMissingId).2 rfl⟩⟩

/-- Membership after a dict assignment: the pair was already present, or it
is the assigned key/value. -/
theorem mem_dictInsert (d : List (String × String)) (k' v' k v : String)
    (h : (k, v) ∈ dictInsert d k' v') : (k, v) ∈ d ∨ (k = k' ∧ v = v') := by
  unfold dictInsert at h
  split at h
  · rw [List.mem_map] at h
    obtain ⟨p, hp, hpe⟩ := h
    by_cases hpk : p.1 = k'
    · simp only [hpk, if_pos] at hpe
      cases hpe
      right; exact ⟨rfl, rfl⟩
    · simp only [hpk, if_neg, if_false] at hpe
      left; exact hpe ▸ hp
  · rw [List.mem_append] at h
    cases h with
    | inl h => exact Or.inl h
    | inr h =>
      simp only [List.mem_singleton, Prod.mk.injEq] at h
      exact Or.inr h

/-- A gather that returns normally got a value from every task, in order. -/
theorem gatherResults_ok (l : List (Except PyErr (Option String)))
    (rs : List (Option String)) (h : gatherResults l = .ok rs) :
    l = rs.map Except.ok := by
  induction l generalizing rs with
  | nil =>
    simp [gatherResults] at h
    subst h; rfl
  | cons x xs ih =>
    cases x with
    | error e => simp [gatherResults] at h
    | ok r =>
      cases hg : gatherResults xs with
      | error e => simp [gatherResults, hg] at h
      | ok rs' =>
        simp [gatherResults, hg] at h
        subst h
        simp [ih rs' hg]

/-- Soundness of the `paper_paths` loop over the zipped batch: every pair of
the final dict was in the accumulator or comes from an input entry whose own
download produced that exact path. -/
theorem buildPaths_zip_sound (f : JVal → Except PyErr (Option String))
    (papers : List JVal) (results : List (Option String))
    (hres : papers.map f = results.map Except.ok)
    (acc out : List (String × String))
    (h : buildPaths (papers.zip results) acc = .ok out)
    (k v : String) (hmem : (k, v) ∈ out) :
    (k, v) ∈ acc ∨
      ∃ e, e ∈ papers ∧ paperIdOf e = .ok (.str k) ∧ f e = .ok (some v) := by
  induction papers generalizing results acc with
  | nil =>
    simp [buildPaths] at h
    left; exact h ▸ hmem
  | cons p ps ih =>
    cases results with
    | nil =>
      simp [buildPaths] at h
      left; exact h ▸ hmem
    | cons r rs =>
      simp only [List.map_cons, List.cons.injEq] at hres
      obtain ⟨hf, hrest⟩ := hres
      rw [List.zip_cons_cons] at h
      cases r with
      | none =>
        simp only [buildPaths] at h
        rcases ih rs hrest acc h with hacc | ⟨e, he, hid, hfe⟩
        · left; exact hacc
        · right; exact ⟨e, List.mem_cons_of_mem p he, hid, hfe⟩
      | some s =>
        by_cases hs : s.isEmpty
        · simp only [buildPaths, hs, if_pos] at h
          rcases ih rs hrest acc h with hacc | ⟨e, he, hid, hfe⟩
          · left; exact hacc
          · right; exact ⟨e, List.mem_cons_of_mem p he, hid, hfe⟩
        · cases hid : paperIdOf p with
          | error err => simp [buildPaths, hs, hid] at h
          | ok idv =>
            cases idv with
            | str kk =>
              simp only [buildPaths, hs, if_neg, if_false, hid] at h
              rcases ih rs hrest (dictInsert acc kk s) h with hacc | ⟨e, he, hid', hfe⟩
              · rcases mem_dictInsert acc kk s k v hacc with hacc' | ⟨hk, hv⟩
                · left; exact hacc'
                · right
                  refine ⟨p, List.mem_cons_self p ps, ?_, ?_⟩
                  · rw [hk]; exact hid
                  · rw [hf, hv]
              · right; exact ⟨e, List.mem_cons_of_mem p he, hid', hfe⟩
            | num n => simp [buildPaths, hs, hid] at h
            | null => simp [buildPaths, hs, hid] at h
            | arr xs => simp [buildPaths, hs, hid] at h
            | obj fs => simp [buildPaths, hs, hid] at h

/-- Entries with the same paper id have the same download outcome: the
download consults nothing else of the entry. -/
theorem download_paper_congr_id (net : String → Except NetErr Response)
    (fsW : String → List Nat → Except IOErr Unit) (today : String)
    (e e' : JVal) (pid : String)
    (h : paperIdOf e = .ok (.str pid)) (h' : paperIdOf e' = .ok (.str pid)) :
    download_paper net fsW today e = download_paper net fsW today e' := by
  rw [download_paper_eq_of_id net fsW today e pid h,
      download_paper_eq_of_id net fsW today e' pid h']

/-- C10: whenever `download_papers` returns a mapping, every key of the
mapping is the paper id of some entry of the input batch and its value is
the file path that entry's own download produced; an entry whose download
returned `None` never appears as a key. -/
theorem download_papers_paths_correspond (net : String → Except NetErr Response)
    (fsW : String → List Nat → Except IOErr Unit) (today : String)
    (papers : List JVal) (res : DlResult)
    (h : download_papers net fsW today papers = .ok res) :
    (∀ k v, (k, v) ∈ res.paper_paths →
      ∃ e, e ∈ papers ∧ paperIdOf e = .ok (.str k) ∧
        download_paper net fsW today e = .ok (some v)) ∧
    (∀ e pid, e ∈ papers → paperIdOf e = .ok (.str pid) →
      download_paper net fsW today e = .ok none →
      ∀ v, (pid, v) ∉ res.paper_paths) := by
  cases hg : gatherResults (papers.map (download_paper net fsW today)) with
  | error err => simp [download_papers, hg] at h
  | ok results =>
    cases hb : buildPaths (papers.zip results) [] with
    | error err => simp [download_papers, hg, hb] at h
    | ok paths =>
      cases hc : countSuccessful results with
      | error err => simp [download_papers, hg, hb, hc] at h
      | ok n =>
        have hres : papers.map (download_paper net fsW today) =
            results.map Except.ok := gatherResults_ok _ _ hg
        have hpaths : res.paper_paths = paths := by
          simp [download_papers, hg, hb, hc] at h
          rw [← h]
        constructor
        · intro k v hm
          rw [hpaths] at hm
          rcases buildPaths_zip_sound _ papers results hres [] paths hb k v hm with
            habs | hex
          · simp at habs
          · exact hex
        · intro e pid he hid hdl v hv
          rw [hpaths] at hv
          rcases buildPaths_zip_sound _ papers results hres [] paths hb pid v hv with
            habs | ⟨e', _, hid', hfe'⟩
          · simp at habs
          · have hsame := download_paper_congr_id net fsW today e e' pid hid hid'
            rw [hdl, hfe'] at hsame
            simp at hsame

/-- Witness for C10: in the all-success run on `[entryA, entryB]`, the key
`2401.00001` of the returned mapping corresponds to an input entry whose own
download produced the stored path. -/
theorem download_papers_paths_correspond_witness :
    ∃ e, e ∈ [entryA, entryB] ∧ paperIdOf e = .ok (.str "2401.00001") ∧
      download_paper netAll200 fsOk today0 e =
        .ok (some "temp_papers/2026-10-12_2401.00001.pdf") :=
  (download_papers_paths_correspond netAll200 fsOk today0 [entryA, entryB]
      ⟨[("2401.00001", "temp_papers/2026-10-12_2401.00001.pdf"),
        ("org/2401.00002", "temp_papers/2026-10-12_org_2401.00002.pdf")], 2, 2⟩
      rfl).1 "2401.00001" "temp_papers/2026-10-12_2401.00001.pdf" (by decide)

/-- C1 (code evaluated at the failing input): on a two-entry batch whose
second document GET answers 404, `download_papers` does not return two
outcomes — it raises `TypeError` (the success counter subscripts the failed
entry's `None` result) and returns nothing at all. -/
theorem download_papers_not_one_outcome_per_entry :
    download_papers netAonly fsOk today0 [entryA, entryB] =
      .error .typeError := rfl

/-- C2 (code evaluated at the failing input): fault isolation is violated —
`entryA`'s own download succeeds and `entryB`'s network timeout downgrades
to an isolated `None`, yet the batch call raises `TypeError` instead of
returning a result containing the successful entry's outcome. -/
theorem download_papers_not_fault_isolated :
    download_paper netAokBtimeout fsOk today0 entryA =
      .ok (some "temp_papers/2026-10-12_2401.00001.pdf") ∧
    download_paper netAokBtimeout fsOk today0 entryB = .ok none ∧
    download_papers netAokBtimeout fsOk today0 [entryA, entryB] =
      .error .typeError :=
  ⟨rfl, rfl, rfl⟩

/-- C9 (code evaluated at the failing input): the reported aggregate is
computed by subscripting each result string — an all-success run on three
entries does report 3 of 3, but as soon as one entry's download fails the
counter raises `TypeError` and no aggregate is reported. -/
theorem download_papers_success_count_crashes :
    download_papers netAll200 fsOk today0 [entryA, entryB, entryC] =
      .ok ⟨[("2401.00001", "temp_papers/2026-10-12_2401.00001.pdf"),
            ("org/2401.00002", "temp_papers/2026-10-12_org_2401.00002.pdf"),
            ("2401.00003", "temp_papers/2026-10-12_2401.00003.pdf")],
           3, 3⟩ ∧
    download_papers netAonly fsOk today0 [entryA, entryC, entryB] =
      .error .typeError :=
  ⟨rfl, rfl⟩

end PaperFlux
